import Mathlib

/-
Verification of the static-cdk repository's two-stack topology logic:
a shallow embedding of the StaticSiteStack (hosting) and CiCdStack
(delivery pipeline) constructors and of the app entry point, as pure
Lean functions producing declarative topology descriptions, together
with theorems settling the specification's claims about them.
-/

namespace StaticCdk

/-- Modelled from the spec: the Resource Namer `identifyResource` from
`config-util.ts`, whose definition is not under src/ (only its call
sites are). Per the spec it maps (prefix, logical name) to
`prefix + separator + logicalName`, with the documented example
`identify("cdk-web-static", "bucket-name") = "cdk-web-static-bucket-name"`
fixing the separator as a single hyphen. -/
def identifyResource (pfx : String) (logicalName : String) : String :=
  pfx ++ "-" ++ logicalName

/-- A CloudFormation-level value: either a literal string fixed at
construction time, or a cross-stack reference imported by key
(`Fn.importValue(key)` in the app entry). -/
inductive CfnValue where
  | literal (s : String)
  | importValue (key : String)
deriving DecidableEq, Repr

/-- One fragment of a TypeScript template literal: literal text, or a
spliced value. A template such as `arn:aws:s3:::${bucket}/objects` is the
list `[lit "arn:aws:s3:::", ref bucket, lit "/objects"]`. -/
inductive Frag where
  | lit (s : String)
  | ref (v : CfnValue)
deriving DecidableEq, Repr

/-- A TypeScript template literal over `CfnValue` splices. -/
abbrev TemplateString := List Frag

/-- Resolve a `CfnValue` given an assignment `rho` of values to the
published stack-output keys. -/
def CfnValue.resolve (rho : String → String) : CfnValue → String
  | .literal s => s
  | .importValue k => rho k

/-- Resolve a whole template literal under an output assignment. -/
def TemplateString.resolve (rho : String → String) (ts : TemplateString) : String :=
  ts.foldl (fun acc f => acc ++ (match f with | .lit s => s | .ref v => v.resolve rho)) ""

/-- A template that is exactly the account-wide wildcard resource. -/
def TemplateString.isStarWildcard (ts : TemplateString) : Bool :=
  ts = [Frag.lit "*"]

/-! ## IAM model -/

inductive Effect where
  | allow
  | deny
deriving DecidableEq, Repr

/-- A principal appearing in a bucket resource policy; the only kind the
repository uses is the canonical-user principal of a CloudFront
origin-access identity, identified by that OAI construct's id. -/
inductive Principal where
  | canonicalUser (oaiConstructId : String)
deriving DecidableEq, Repr

structure IamPolicyStatement where
  effect : Effect
  actions : List String
  resources : List TemplateString
  principals : List Principal
deriving DecidableEq, Repr

/-! ## Hosting stack (StaticSiteStack) model -/

structure StaticSiteProps where
  resourcePrefix : String
  hostedZoneName : String
  domainName : String
  includeWWW : Bool
  siteSourcePath : String
  staticSiteBucketNameOutputId : String
  staticSiteDistributionIdOutputId : String
deriving DecidableEq, Repr

inductive BlockPublicAccess where
  | blockAll
  | blockAcls
deriving DecidableEq, Repr

inductive RemovalPolicy where
  | destroy
  | retain
deriving DecidableEq, Repr

structure OriginAccessIdentityModel where
  constructId : String
  comment : String
deriving DecidableEq, Repr

structure BucketModel where
  constructId : String
  bucketName : String
  websiteIndexDocument : String
  websiteErrorDocument : String
  publicReadAccess : Bool
  blockPublicAccess : BlockPublicAccess
  removalPolicy : RemovalPolicy
  autoDeleteObjects : Bool
deriving DecidableEq, Repr

/-- The ARN of the bucket; the bucket's physical name is set explicitly
in this repository, so the ARN is determined by it. -/
def BucketModel.arn (b : BucketModel) : String :=
  "arn:aws:s3:::" ++ b.bucketName

/-- `bucket.arnForObjects(pattern)` from the aws-cdk-lib s3 API. -/
def BucketModel.arnForObjects (b : BucketModel) (keyPattern : String) : String :=
  b.arn ++ "/" ++ keyPattern

structure CertificateModel where
  constructId : String
  domainName : String
  hostedZoneName : String
  region : String
  subjectAlternativeNames : List String
deriving DecidableEq, Repr

inductive SSLMethod where
  | sni
  | vip
deriving DecidableEq, Repr

inductive SecurityPolicyProtocol where
  | tlsV1
  | tlsV1_1_2016
  | tlsV1_2_2021
deriving DecidableEq, Repr

structure ViewerCertificateModel where
  certificateOf : String
  sslMethod : SSLMethod
  securityPolicy : SecurityPolicyProtocol
  aliases : List String
deriving DecidableEq, Repr

inductive CloudFrontAllowedMethods where
  | getHead
  | getHeadOptions
  | all
deriving DecidableEq, Repr

/-- The HTTP verbs admitted by each aws-cdk-lib `CloudFrontAllowedMethods`
constant. -/
def CloudFrontAllowedMethods.verbs : CloudFrontAllowedMethods → List String
  | .getHead => ["GET", "HEAD"]
  | .getHeadOptions => ["GET", "HEAD", "OPTIONS"]
  | .all => ["DELETE", "GET", "HEAD", "OPTIONS", "PATCH", "POST", "PUT"]

structure BehaviorModel where
  isDefaultBehavior : Bool
  compress : Bool
  allowedMethods : CloudFrontAllowedMethods
deriving DecidableEq, Repr

structure OriginConfigModel where
  s3BucketSource : String
  originAccessIdentity : String
  behaviors : List BehaviorModel
deriving DecidableEq, Repr

structure DistributionModel where
  constructId : String
  viewerCertificate : ViewerCertificateModel
  originConfigs : List OriginConfigModel
deriving DecidableEq, Repr

structure ARecordModel where
  constructId : String
  recordName : String
  targetDistribution : String
  zoneName : String
deriving DecidableEq, Repr

structure BucketDeploymentModel where
  constructId : String
  sourcePath : String
  destinationBucket : String
  distribution : String
  distributionPaths : List String
deriving DecidableEq, Repr

/-- The value published by a `CfnOutput`: a string resolvable at synth
time (the bucket name is set explicitly, so `siteBucket.bucketName`
resolves to it), or the provider-resolved distribution id attribute of a
distribution construct. -/
inductive OutputValue where
  | str (s : String)
  | distributionIdOf (constructId : String)
deriving DecidableEq, Repr

structure CfnOutputModel where
  constructId : String
  value : OutputValue
  exportName : String
deriving DecidableEq, Repr

/-- The full declarative topology produced by the StaticSiteStack
constructor. -/
structure StaticSiteTopology where
  hostedZoneLookupName : String
  oai : OriginAccessIdentityModel
  siteBucket : BucketModel
  bucketPolicyStatements : List IamPolicyStatement
  certificate : CertificateModel
  distribution : DistributionModel
  aliasRecords : List ARecordModel
  bucketDeployment : BucketDeploymentModel
  outputs : List CfnOutputModel
deriving DecidableEq, Repr

/-- Shallow embedding of the `StaticSiteStack` constructor
(src/unnamed/part_001), translated statement by statement; `stackId` is
the construct id the caller passes (used in the OAI comment). -/
def staticSiteStack (stackId : String) (props : StaticSiteProps) : StaticSiteTopology :=
  let siteDomain := props.domainName
  let fullSiteDomain := "www." ++ siteDomain
  let oai : OriginAccessIdentityModel :=
    { constructId := identifyResource props.resourcePrefix "cloudfront-OAI"
      comment := "OAI for " ++ stackId }
  let siteBucket : BucketModel :=
    { constructId := identifyResource props.resourcePrefix "site-bucket"
      bucketName := siteDomain
      websiteIndexDocument := "index.html"
      websiteErrorDocument := "error.html"
      publicReadAccess := false
      blockPublicAccess := .blockAll
      removalPolicy := .destroy
      autoDeleteObjects := true }
  let certificate : CertificateModel :=
    { constructId := identifyResource props.resourcePrefix "site-certificate"
      domainName := siteDomain
      hostedZoneName := props.hostedZoneName
      region := "us-east-1"
      subjectAlternativeNames := if props.includeWWW then [fullSiteDomain] else [] }
  let distribution : DistributionModel :=
    { constructId := identifyResource props.resourcePrefix "site-distribution"
      viewerCertificate :=
        { certificateOf := certificate.constructId
          sslMethod := .sni
          securityPolicy := .tlsV1_2_2021
          aliases := if props.includeWWW then [siteDomain, fullSiteDomain] else [siteDomain] }
      originConfigs :=
        [{ s3BucketSource := siteBucket.constructId
           originAccessIdentity := oai.constructId
           behaviors :=
             [{ isDefaultBehavior := true
                compress := true
                allowedMethods := .getHeadOptions }] }] }
  { hostedZoneLookupName := props.hostedZoneName
    oai := oai
    siteBucket := siteBucket
    bucketPolicyStatements :=
      [{ effect := .allow
         actions := ["s3:GetObject"]
         resources := [[Frag.lit (siteBucket.arnForObjects "*")]]
         principals := [.canonicalUser oai.constructId] }]
    certificate := certificate
    distribution := distribution
    aliasRecords :=
      [{ constructId := identifyResource props.resourcePrefix "site-alias-record-01"
         recordName := siteDomain
         targetDistribution := distribution.constructId
         zoneName := props.hostedZoneName }] ++
      (if props.includeWWW then
        [{ constructId := identifyResource props.resourcePrefix "site-alias-record-02"
           recordName := fullSiteDomain
           targetDistribution := distribution.constructId
           zoneName := props.hostedZoneName }]
       else [])
    bucketDeployment :=
      { constructId := identifyResource props.resourcePrefix "bucket-deployment"
        sourcePath := props.siteSourcePath
        destinationBucket := siteBucket.constructId
        distribution := distribution.constructId
        distributionPaths := ["/*"] }
    outputs :=
      [{ constructId := props.staticSiteBucketNameOutputId
         value := .str siteBucket.bucketName
         exportName := props.staticSiteBucketNameOutputId },
       { constructId := props.staticSiteDistributionIdOutputId
         value := .distributionIdOf distribution.constructId
         exportName := props.staticSiteDistributionIdOutputId }] }

/-! ## Pipeline stack (CiCdStack) model -/

structure CiCdProps where
  resourcePrefix : String
  distributionId : CfnValue
  bucket : CfnValue
  repo : String
  repoOwner : String
  repoBranch : String
  githubTokenSecretId : String
  buildAlertEmail : String
  account : String
deriving DecidableEq, Repr

structure GitHubSourceActionModel where
  actionName : String
  owner : String
  repo : String
  branch : String
  oauthTokenSecretId : String
  oauthTokenJsonField : String
  output : String
deriving DecidableEq, Repr

structure BuildSpecModel where
  version : String
  installRuntimeNodejs : String
  installCommands : List TemplateString
  buildCommands : List TemplateString
  postBuildCommands : List TemplateString
deriving DecidableEq, Repr

inductive EventTarget where
  | snsTopic (topicConstructId : String)
deriving DecidableEq, Repr

structure EventRuleModel where
  ruleId : String
  target : EventTarget
deriving DecidableEq, Repr

structure PipelineProjectModel where
  constructId : String
  buildSpec : BuildSpecModel
  buildImage : String
  rolePolicies : List IamPolicyStatement
  failureRules : List EventRuleModel
deriving DecidableEq, Repr

structure TopicModel where
  constructId : String
  topicName : String
  displayName : String
deriving DecidableEq, Repr

inductive SubscriptionProtocol where
  | email
  | https
deriving DecidableEq, Repr

structure SubscriptionModel where
  constructId : String
  protocol : SubscriptionProtocol
  endpoint : String
  topic : String
deriving DecidableEq, Repr

inductive PipelineActionModel where
  | source (a : GitHubSourceActionModel)
  | codeBuild (actionName : String) (projectConstructId : String) (input : String)
deriving DecidableEq, Repr

structure StageModel where
  stageName : String
  actions : List PipelineActionModel
deriving DecidableEq, Repr

structure PipelineModel where
  constructId : String
  pipelineName : String
  stages : List StageModel
deriving DecidableEq, Repr

/-- The full declarative topology produced by the CiCdStack
constructor. -/
structure CiCdTopology where
  sourceAction : GitHubSourceActionModel
  buildProject : PipelineProjectModel
  alertsTopic : TopicModel
  alertsSubscription : SubscriptionModel
  pipeline : PipelineModel
deriving DecidableEq, Repr

/-- Shallow embedding of `CiCdStack.createBuildProject`
(src/unnamed/part_000), including the build spec, the two role policy
statements, the alerts topic with its email subscription, and the
build-failed rule; it returns those pieces for the stack model. -/
def createBuildProject (resourcePrefix : String) (distributionId : CfnValue)
    (staticWebsiteBucket : CfnValue) (buildAlertEmail : String) (account : String) :
    PipelineProjectModel × TopicModel × SubscriptionModel :=
  let alertsTopic : TopicModel :=
    { constructId := identifyResource resourcePrefix "notifications"
      topicName := identifyResource resourcePrefix "notifications"
      displayName := resourcePrefix ++ " pipeline failures" }
  let buildProject : PipelineProjectModel :=
    { constructId := identifyResource resourcePrefix "build"
      buildSpec :=
        { version := "0.2"
          installRuntimeNodejs := "latest"
          installCommands := [[Frag.lit "npm install"]]
          buildCommands := [[Frag.lit "npm run build"]]
          postBuildCommands :=
            [[Frag.lit "aws s3 sync \"dist\" \"s3://", Frag.ref staticWebsiteBucket,
              Frag.lit "\" --delete"],
             [Frag.lit "aws cloudfront create-invalidation --distribution-id ",
              Frag.ref distributionId, Frag.lit " --paths \"/*\""]] }
      buildImage := "STANDARD_5_0"
      rolePolicies :=
        [{ effect := .allow
           actions := ["s3:GetObject", "s3:GetBucketLocation", "s3:ListBucket",
                       "s3:PutObject", "s3:DeleteObject", "s3:PutObjectAcl"]
           resources := [[Frag.lit "arn:aws:s3:::", Frag.ref staticWebsiteBucket],
                         [Frag.lit "arn:aws:s3:::", Frag.ref staticWebsiteBucket, Frag.lit "/*"]]
           principals := [] },
         { effect := .allow
           actions := ["cloudfront:CreateInvalidation"]
           resources := [[Frag.lit ("arn:aws:cloudfront::" ++ account ++ ":distribution/"),
                          Frag.ref distributionId]]
           principals := [] }]
      failureRules :=
        [{ ruleId := identifyResource resourcePrefix "build-failed"
           target := .snsTopic alertsTopic.constructId }] }
  let alertsSubscription : SubscriptionModel :=
    { constructId := identifyResource resourcePrefix "notifications-subscription"
      protocol := .email
      endpoint := buildAlertEmail
      topic := alertsTopic.constructId }
  (buildProject, alertsTopic, alertsSubscription)

/-- Shallow embedding of the `CiCdStack` constructor
(src/unnamed/part_000). -/
def ciCdStack (props : CiCdProps) : CiCdTopology :=
  let sourceAction : GitHubSourceActionModel :=
    { actionName := "SOURCE"
      owner := props.repoOwner
      repo := props.repo
      branch := props.repoBranch
      oauthTokenSecretId := props.githubTokenSecretId
      oauthTokenJsonField := "github-token"
      output := "SourceOutput" }
  let built := createBuildProject props.resourcePrefix props.distributionId props.bucket
    props.buildAlertEmail props.account
  let webBuildProject := built.1
  let buildAction : PipelineActionModel :=
    .codeBuild "BUILD_DEPLOY" webBuildProject.constructId "SourceOutput"
  let pipelineName := identifyResource props.resourcePrefix "pipeline"
  { sourceAction := sourceAction
    buildProject := webBuildProject
    alertsTopic := built.2.1
    alertsSubscription := built.2.2
    pipeline :=
      { constructId := pipelineName
        pipelineName := pipelineName
        stages :=
          [{ stageName := "Source", actions := [.source sourceAction] },
           { stageName := "Build", actions := [buildAction] }] } }

/-! ## App entry point (src/unnamed/part_002) -/

def accountId : String := "<<YOUR_ACCOUNT_ID>>"

def deployRegion : String := "<<YOUR_REGION>>"

def staticSiteResourcePfx : String := "cdk-web-static"

def STATIC_SITE_BUCKET_NAME_OUTPUT_ID : String :=
  identifyResource staticSiteResourcePfx "bucket-name"

def STATIC_SITE_DISTRIBUTION_ID_OUTPUT_ID : String :=
  identifyResource staticSiteResourcePfx "distribution-id"

/-- The construct id the app entry gives the `StaticSiteStack`. -/
def appStaticSiteStackId : String :=
  identifyResource staticSiteResourcePfx "stack"

/-- The props the app entry passes to `StaticSiteStack`. -/
def appStaticSiteProps : StaticSiteProps :=
  { resourcePrefix := staticSiteResourcePfx
    hostedZoneName := "<<YOUR_HOSTED_ZONE_NAME>>"
    domainName := "<<YOUR_DOMAIN_NAME>>"
    includeWWW := false
    siteSourcePath := "../dist"
    staticSiteBucketNameOutputId := STATIC_SITE_BUCKET_NAME_OUTPUT_ID
    staticSiteDistributionIdOutputId := STATIC_SITE_DISTRIBUTION_ID_OUTPUT_ID }

def ciCdResourcePfx : String := "cdk-web-cicd"

/-- The props the app entry passes to `CiCdStack`: the bucket and
distribution id are `Fn.importValue` references to the hosting stack's
two output keys. -/
def appCiCdProps : CiCdProps :=
  { resourcePrefix := ciCdResourcePfx
    distributionId := .importValue STATIC_SITE_DISTRIBUTION_ID_OUTPUT_ID
    bucket := .importValue STATIC_SITE_BUCKET_NAME_OUTPUT_ID
    repo := "<<YOUR_REPO_NAME>>"
    repoOwner := "<<YOUR_REPO_OWNER>>"
    repoBranch := "master"
    githubTokenSecretId := "/static-cdk/cicd/github_token"
    buildAlertEmail := "<<YOUR_EMAIL_ADDRESS>>>"
    account := accountId }

/-! ## Helper lemmas -/

/-- Prepending the `www.` label to a domain string never yields the
same string back. -/
theorem www_append_ne (d : String) : "www." ++ d ≠ d := by
  intro h
  have h2 := congrArg String.length h
  simp [String.length_append] at h2
  exact absurd h2 (by decide)

/-! ## Claims -/

/-- Claim C1: for every value of the `includeWWW` flag, the
`www.`-prefixed domain is a member of the certificate's
subject-alternative-name set exactly when `includeWWW` is true, and a
member of the DNS alias-record name set exactly when `includeWWW` is
true — so the two layers always agree in membership on the www alias. -/
theorem wwwAlias_cert_and_dns_agree (stackId : String) (props : StaticSiteProps) :
    (("www." ++ props.domainName) ∈
        (staticSiteStack stackId props).certificate.subjectAlternativeNames
      ↔ props.includeWWW = true) ∧
    (("www." ++ props.domainName) ∈
        ((staticSiteStack stackId props).aliasRecords.map ARecordModel.recordName)
      ↔ props.includeWWW = true) := by
  have hne := www_append_ne props.domainName
  cases h : props.includeWWW <;> simp [staticSiteStack, h, hne]

/-- Claim C2: with `includeWWW = false`, the hosting topology contains
exactly one DNS alias record and the certificate's
subject-alternative-name set is empty. -/
theorem includeWWW_false_single_record_empty_sans (stackId : String) (props : StaticSiteProps)
    (h : props.includeWWW = false) :
    (staticSiteStack stackId props).aliasRecords.length = 1 ∧
    (staticSiteStack stackId props).certificate.subjectAlternativeNames = [] := by
  simp [staticSiteStack, h]

/-- Witness for C2 at the concrete props the app entry uses (which set
`includeWWW := false`). -/
theorem includeWWW_false_single_record_empty_sans_witness :
    appStaticSiteProps.includeWWW = false ∧
    ((staticSiteStack appStaticSiteStackId appStaticSiteProps).aliasRecords.length = 1 ∧
     (staticSiteStack appStaticSiteStackId appStaticSiteProps).certificate.subjectAlternativeNames = []) :=
  ⟨rfl, includeWWW_false_single_record_empty_sans appStaticSiteStackId appStaticSiteProps rfl⟩

/-- Claim C3: in the app entry, the pipeline stack's bucket and
distribution-id props are structurally `Fn.importValue` references to
exactly the two output keys the hosting stack was given, the hosting
stack publishes its outputs under exactly those keys, and neither prop
is a literal value. -/
theorem pipeline_inputs_reference_hosting_outputs :
    appCiCdProps.bucket = CfnValue.importValue STATIC_SITE_BUCKET_NAME_OUTPUT_ID ∧
    appCiCdProps.distributionId = CfnValue.importValue STATIC_SITE_DISTRIBUTION_ID_OUTPUT_ID ∧
    appStaticSiteProps.staticSiteBucketNameOutputId = STATIC_SITE_BUCKET_NAME_OUTPUT_ID ∧
    appStaticSiteProps.staticSiteDistributionIdOutputId = STATIC_SITE_DISTRIBUTION_ID_OUTPUT_ID ∧
    (staticSiteStack appStaticSiteStackId appStaticSiteProps).outputs.map CfnOutputModel.exportName =
      [STATIC_SITE_BUCKET_NAME_OUTPUT_ID, STATIC_SITE_DISTRIBUTION_ID_OUTPUT_ID] ∧
    (∀ s, appCiCdProps.bucket ≠ CfnValue.literal s) ∧
    (∀ s, appCiCdProps.distributionId ≠ CfnValue.literal s) := by
  refine ⟨rfl, rfl, rfl, rfl, rfl, ?_, ?_⟩ <;>
    · intro s h
      simp [appCiCdProps] at h

/-- Claim C4: the Resource Namer is injective over the logical name for
a fixed prefix (in fact over all logical names, hence over the finite
set the two topology builders use), and maps the documented example
`("cdk-web-static", "bucket-name")` to `"cdk-web-static-bucket-name"` —
prefix, hyphen separator, logical name. Determinism and purity are
inherent: it is a total function of its two arguments. -/
theorem identifyResource_injective_and_example :
    (∀ p l1 l2, identifyResource p l1 = identifyResource p l2 → l1 = l2) ∧
    identifyResource "cdk-web-static" "bucket-name" = "cdk-web-static-bucket-name" ∧
    (∀ p l, identifyResource p l = p ++ "-" ++ l) := by
  refine ⟨?_, rfl, fun _ _ => rfl⟩
  intro p l1 l2 h
  have hd := congrArg String.data h
  simp [identifyResource, String.data_append] at hd
  exact String.ext hd

/-- Claim C5: the storage bucket is created with public read access
denied and all public access blocked; its resource policy holds exactly
one statement, which grants only `s3:GetObject` on the bucket's objects
to exactly the canonical-user principal of the origin-access identity —
the same OAI the CDN distribution's single origin is bound to. -/
theorem bucket_least_privilege (stackId : String) (props : StaticSiteProps) :
    (staticSiteStack stackId props).siteBucket.publicReadAccess = false ∧
    (staticSiteStack stackId props).siteBucket.blockPublicAccess = BlockPublicAccess.blockAll ∧
    (staticSiteStack stackId props).bucketPolicyStatements.length = 1 ∧
    (staticSiteStack stackId props).distribution.originConfigs.map OriginConfigModel.originAccessIdentity
      = [(staticSiteStack stackId props).oai.constructId] ∧
    (∀ st ∈ (staticSiteStack stackId props).bucketPolicyStatements,
      st.actions = ["s3:GetObject"] ∧
      st.resources = [[Frag.lit ((staticSiteStack stackId props).siteBucket.arnForObjects "*")]] ∧
      st.principals = [Principal.canonicalUser (staticSiteStack stackId props).oai.constructId]) := by
  refine ⟨rfl, rfl, rfl, rfl, ?_⟩
  intro st hst
  simp [staticSiteStack] at hst
  subst hst
  exact ⟨rfl, rfl, rfl⟩

/-- Claim C6: the build project's execution role receives exactly two
policy statements — the S3 object/bucket actions scoped to the specific
bucket ARN and its objects, and `cloudfront:CreateInvalidation` scoped
to the specific distribution ARN — and no resource in either statement
is the bare account-wide wildcard. -/
theorem build_role_exactly_two_scoped_policies (props : CiCdProps) :
    (ciCdStack props).buildProject.rolePolicies =
      [{ effect := .allow
         actions := ["s3:GetObject", "s3:GetBucketLocation", "s3:ListBucket",
                     "s3:PutObject", "s3:DeleteObject", "s3:PutObjectAcl"]
         resources := [[Frag.lit "arn:aws:s3:::", Frag.ref props.bucket],
                       [Frag.lit "arn:aws:s3:::", Frag.ref props.bucket, Frag.lit "/*"]]
         principals := [] },
       { effect := .allow
         actions := ["cloudfront:CreateInvalidation"]
         resources := [[Frag.lit ("arn:aws:cloudfront::" ++ props.account ++ ":distribution/"),
                        Frag.ref props.distributionId]]
         principals := [] }] ∧
    (∀ st ∈ (ciCdStack props).buildProject.rolePolicies, ∀ r ∈ st.resources,
      TemplateString.isStarWildcard r = false) := by
  refine ⟨rfl, ?_⟩
  intro st hst r hr
  simp [ciCdStack, createBuildProject] at hst
  rcases hst with rfl | rfl
  · simp at hr
    rcases hr with rfl | rfl <;> simp [TemplateString.isStarWildcard]
  · simp at hr
    subst hr
    simp [TemplateString.isStarWildcard]

/-- Claim C7: the build spec installs dependencies, runs the build, and
in its post-build phase first syncs the build output into the referenced
bucket with `--delete` (mirror semantics) and then issues a CloudFront
invalidation for all paths (`/*`) against the referenced distribution;
under every resolution of the imported output values the two post-build
commands are exactly the sync-with-delete and full-path-invalidation
command lines for those values. -/
theorem build_spec_sync_delete_and_invalidate (props : CiCdProps) :
    (ciCdStack props).buildProject.buildSpec.installCommands = [[Frag.lit "npm install"]] ∧
    (ciCdStack props).buildProject.buildSpec.buildCommands = [[Frag.lit "npm run build"]] ∧
    (ciCdStack props).buildProject.buildSpec.postBuildCommands =
      [[Frag.lit "aws s3 sync \"dist\" \"s3://", Frag.ref props.bucket,
        Frag.lit "\" --delete"],
       [Frag.lit "aws cloudfront create-invalidation --distribution-id ",
        Frag.ref props.distributionId, Frag.lit " --paths \"/*\""]] ∧
    (∀ rho : String → String,
      (ciCdStack props).buildProject.buildSpec.postBuildCommands.map
          (TemplateString.resolve rho) =
        ["aws s3 sync \"dist\" \"s3://" ++ props.bucket.resolve rho ++ "\" --delete",
         "aws cloudfront create-invalidation --distribution-id " ++
           props.distributionId.resolve rho ++ " --paths \"/*\""]) := by
  refine ⟨rfl, rfl, rfl, ?_⟩
  intro rho
  simp [ciCdStack, createBuildProject, TemplateString.resolve]

/-- Claim C8: the CDN distribution's single origin is the site bucket
accessed through the origin-access identity, its viewer certificate is
the issued certificate with minimum protocol TLSv1.2-2021, compression
is enabled, and the allowed methods are exactly the read-only verbs
GET, HEAD and OPTIONS. -/
theorem distribution_read_only_tls (stackId : String) (props : StaticSiteProps) :
    (staticSiteStack stackId props).distribution.viewerCertificate.certificateOf
      = (staticSiteStack stackId props).certificate.constructId ∧
    (staticSiteStack stackId props).distribution.viewerCertificate.securityPolicy
      = SecurityPolicyProtocol.tlsV1_2_2021 ∧
    (staticSiteStack stackId props).distribution.originConfigs =
      [{ s3BucketSource := (staticSiteStack stackId props).siteBucket.constructId
         originAccessIdentity := (staticSiteStack stackId props).oai.constructId
         behaviors := [{ isDefaultBehavior := true
                         compress := true
                         allowedMethods := .getHeadOptions }] }] ∧
    (∀ cfg ∈ (staticSiteStack stackId props).distribution.originConfigs,
      ∀ b ∈ cfg.behaviors,
        b.compress = true ∧ b.allowedMethods.verbs = ["GET", "HEAD", "OPTIONS"]) := by
  refine ⟨rfl, rfl, rfl, ?_⟩
  intro cfg hcfg b hb
  simp [staticSiteStack] at hcfg
  subst hcfg
  simp at hb
  subst hb
  exact ⟨rfl, rfl⟩

/-- Claim C9: the pipeline topology declares exactly one
failure-propagation path — a single build-failed rule targeting the
alerts topic, to which the supplied alert email is subscribed — and the
pipeline itself consists only of the Source and Build stages with one
action each, so no retry or rollback action exists anywhere in the
topology. -/
theorem single_failure_path_no_retry (props : CiCdProps) :
    (ciCdStack props).buildProject.failureRules =
      [{ ruleId := identifyResource props.resourcePrefix "build-failed"
         target := .snsTopic (ciCdStack props).alertsTopic.constructId }] ∧
    (ciCdStack props).alertsSubscription.protocol = SubscriptionProtocol.email ∧
    (ciCdStack props).alertsSubscription.endpoint = props.buildAlertEmail ∧
    (ciCdStack props).alertsSubscription.topic = (ciCdStack props).alertsTopic.constructId ∧
    (ciCdStack props).pipeline.stages.map StageModel.stageName = ["Source", "Build"] ∧
    (∀ st ∈ (ciCdStack props).pipeline.stages, st.actions.length = 1) := by
  refine ⟨rfl, rfl, rfl, rfl, rfl, ?_⟩
  intro st hst
  simp [ciCdStack, createBuildProject] at hst
  rcases hst with hst | hst <;> subst hst <;> rfl

/-- Claim C10: the hosting stack names the bucket with the primary
domain itself, so the value published under the bucket-name output key
is exactly the primary domain string, while the distribution-id output
carries the provider-resolved distribution attribute. -/
theorem bucket_named_by_domain (stackId : String) (props : StaticSiteProps) :
    (staticSiteStack stackId props).siteBucket.bucketName = props.domainName ∧
    (staticSiteStack stackId props).outputs.map (fun o => (o.exportName, o.value)) =
      [(props.staticSiteBucketNameOutputId, OutputValue.str props.domainName),
       (props.staticSiteDistributionIdOutputId,
        OutputValue.distributionIdOf (identifyResource props.resourcePrefix "site-distribution"))] :=
  ⟨rfl, rfl⟩

end StaticCdk
